import Mathlib

/-!
# Formal model of xoscar's indigen actor-pool process lifecycle

A shallow embedding of `python/xoscar/backends/indigen/pool.py`
(class `MainActorPool` and the module-level helpers), together with proofs
about the address allocator, the launch handshake, batch startup, shutdown
escalation, worker recovery, and the append/remove topology operations.

Python conventions carried over by the embedding:
* fallible code returns `Except PyErr _`; a raised Python exception is the
  `.error` case, carrying the exception class name and message;
* `dict` values are association lists preserving insertion order (as Python
  dicts do); `None`-able parameters become `Option`;
* Python truthiness tests (`if ports:`, `if not schemes:`, `x or y`) are
  spelled out at each use site: an empty list/string is falsy like `None`.
-/

namespace XoscarPool

/-- A raised Python exception: class name, message, attached traceback
(`BaseException.__traceback__`, rewritten by `with_traceback`). -/
structure PyErr where
  name : String
  msg : String := ""
  tb : Option String := none
deriving Repr, DecidableEq

instance {ε α : Type} [DecidableEq ε] [DecidableEq α] : DecidableEq (Except ε α) := fun
  | .ok a, .ok b =>
    if h : a = b then .isTrue (by simp [h]) else .isFalse (by simp [h])
  | .ok _, .error _ => .isFalse (by simp)
  | .error _, .ok _ => .isFalse (by simp)
  | .error a, .error b =>
    if h : a = b then .isTrue (by simp [h]) else .isFalse (by simp [h])

/-! ## String helpers used by the allocator

`get_external_addresses` does `":" in address`, `address.rsplit(":", 1)` and
`int(port_str)`.  They are embedded as structurally recursive functions over
the character list of the string so that they evaluate by kernel reduction. -/

/-- Python `":" in address`. -/
def containsColon (s : String) : Bool := s.toList.contains ':'

/-- Split a character list at its LAST colon (Python `rsplit(":", 1)`):
`none` when there is no colon, otherwise `some (before, after)`. -/
def splitLastColonAux : List Char → Option (List Char × List Char)
  | [] => none
  | c :: rest =>
    match splitLastColonAux rest with
    | some (pre, post) => some (c :: pre, post)
    | none => if c = ':' then some ([], rest) else none

/-- The host part of `address.rsplit(":", 1)` (the address itself when there
is no colon, in which case the Python code never uses it). -/
def parsedHost (address : String) : String :=
  ((splitLastColonAux address.toList).map (fun p => String.mk p.1)).getD address

/-- Decimal digits to a natural number, `none` on any non-digit. -/
def parseDigitsAux : List Char → Nat → Option Nat
  | [], acc => some acc
  | c :: rest, acc =>
    if c.isDigit then parseDigitsAux rest (acc * 10 + (c.toNat - 48)) else none

/-- Python `int(s)` (decimal, optional leading minus); `none` models the
`ValueError` raised on a malformed literal. -/
def parsePyInt (s : String) : Option Int :=
  match s.toList with
  | [] => none
  | '-' :: rest =>
    match rest with
    | [] => none
    | _ => (parseDigitsAux rest 0).map (fun n => -(n : Int))
  | cs => (parseDigitsAux cs 0).map (fun n => (n : Int))

/-- `int(port_str)` for the port part of `address.rsplit(":", 1)`. -/
def parsedPort (address : String) : Option Int :=
  match splitLastColonAux address.toList with
  | none => none
  | some p => parsePyInt (String.mk p.2)

/-- `f"{host}:{port}"`. -/
def addrOf (host : String) (port : Int) : String :=
  host ++ ":" ++ toString port

/-! ## `MainActorPool.get_external_addresses` (the Address Allocator) -/

/-- The branch of `get_external_addresses` that resolves `(host, port,
sub_ports)` from the base address and the optional explicit port list
(pool.py lines 174-201).  `ports.getD []` reflects that the Python code only
ever tests `ports` for truthiness, under which a supplied empty list behaves
exactly like `None`. -/
def resolveHostPorts (address : String) (n_process : Nat)
    (ports : Option (List Int)) : Except PyErr (String × Int × List Int) :=
  if containsColon address then
    match parsedPort address with
    | none => .error { name := "ValueError", msg := "invalid literal for int() with base 10" }
    | some port =>
      if ports.getD [] ≠ [] then
        if (ports.getD []).length ≠ n_process then
          .error { name := "ValueError",
                   msg := "ports specified, but its count is not equal to n_process, number of ports: "
                     ++ toString (ports.getD []).length ++ ", n_process: " ++ toString n_process }
        else .ok (parsedHost address, port, ports.getD [])
      else .ok (parsedHost address, port, List.replicate n_process 0)
  else
    if ports.getD [] ≠ [] ∧ (ports.getD []).length ≠ n_process + 1 then
      .error { name := "ValueError",
               msg := "ports specified, but its count is not equal to n_process + 1, number of ports: "
                 ++ toString (ports.getD []).length ++ ", n_process + 1: " ++ toString (n_process + 1) }
    else if ports.getD [] = [] then
      .ok (address, 0, List.replicate n_process 0)
    else
      .ok (address, (ports.getD []).headD 0, (ports.getD []).tail)

/-- `MainActorPool.get_external_addresses` (pool.py lines 164-209): external
address for the main process followed by one address per worker.  The scheme
prefixes are zipped against `[port] + sub_ports`; the Python
`itertools.repeat("")` used when `schemes` is falsy is rendered as a
replicate of the same length, which zips identically. -/
def get_external_addresses (address : String) (n_process : Nat)
    (ports : Option (List Int)) (schemes : Option (List (Option String))) :
    Except PyErr (List String) :=
  match resolveHostPorts address n_process ports with
  | .error e => .error e
  | .ok (host, port, subPorts) =>
    let allPorts := port :: subPorts
    let schemesL := schemes.getD []
    let prefixList : List String :=
      if schemesL = [] then List.replicate allPorts.length ""
      else schemesL.map (fun s =>
        match s with
        | none => ""
        | some sc => if sc = "" then "" else sc ++ "://")
    .ok (List.zipWith (fun p pre => pre ++ addrOf host p) allPorts prefixList)

/-- `MainActorPool.gen_internal_address` (pool.py lines 211-218); the
`hasUnixSocket` flag embeds `hasattr(asyncio, "start_unix_server")`. -/
def gen_internal_address (hasUnixSocket : Bool) (process_index : Nat)
    (external_address : Option String) : Option String :=
  if hasUnixSocket then some ("unixsocket:///" ++ toString process_index)
  else external_address

example : get_external_addresses "localhost" 2 none none =
    .ok ["localhost:0", "localhost:0", "localhost:0"] := by decide

example : get_external_addresses "1.2.3.4" 1 (some [5, 6]) none =
    .ok ["1.2.3.4:5", "1.2.3.4:6"] := by decide

example : ∃ m, get_external_addresses "localhost:80" 2 (some [11]) none =
    .error { name := "ValueError", msg := m, tb := none } :=
  ⟨"ports specified, but its count is not equal to n_process, number of ports: 1, n_process: 2",
   by decide⟩

/-! ## Ordered string-keyed maps (Python `dict` with insertion order) -/

/-- `d[k]`, as an `Option` (Python raises `KeyError` on a missing key; call
sites spell that out). -/
def lookupKey {β : Type} : List (String × β) → String → Option β
  | [], _ => none
  | (k', v) :: rest, k => if k' = k then some v else lookupKey rest k

/-- `del d[k]`. -/
def removeKey {β : Type} : List (String × β) → String → List (String × β)
  | [], _ => []
  | (k', v) :: rest, k =>
    if k' = k then removeKey rest k else (k', v) :: removeKey rest k

/-- `d[k] = v`: overwrite in place, or append a fresh key at the end
(Python dict insertion order). -/
def setAssoc {β : Type} : List (String × β) → String → β → List (String × β)
  | [], k, v => [(k, v)]
  | (k', v') :: rest, k, v =>
    if k' = k then (k, v) :: rest else (k', v') :: setAssoc rest k v

/-- `d.update(other)` on a string-valued dict. -/
def dictUpdate (d other : List (String × String)) : List (String × String) :=
  other.foldl (fun acc p => setAssoc acc p.1 p.2) d

/-! ## Data model -/

/-- The `SubpoolStatus` dataclass (pool.py lines 127-134): the one-shot
startup handshake record.  `status` 0 is succeeded, 1 is failed. -/
structure SubpoolStatus where
  status : Option Nat := none
  external_addresses : Option (List String) := none
  error : Option PyErr := none
  traceback : Option String := none
deriving Repr, DecidableEq

/-- An OS process handle (`multiprocessing.Process`). -/
structure Process where
  pid : Nat
deriving Repr, DecidableEq

/-- A `CreateActorMessage` recorded in the allocated-actor registry; its
payload is irrelevant here, only its identity and order matter. -/
structure CreateActorMessage where
  message_id : Nat
deriving Repr, DecidableEq

/-- Modelled from the spec: one `PoolProcessEntry` of the Pool Configuration
Store (`ActorPoolConfig` lives outside the verified source; §3 of the design
describes its fields, which match the arguments `append_sub_pool` passes to
`add_pool_conf`).  `logging_conf` and `kwargs` are opaque payloads. -/
structure PoolConfEntry where
  label : Option String := none
  internal_address : Option String := none
  external_address : List String := []
  env : Option (List (String × String)) := none
  modules : Option (List String) := none
  suspend_sigint : Option Bool := none
  use_uvloop : Option Bool := none
  logging_conf : Option String := none
  kwargs : Option String := none
deriving Repr, DecidableEq

/-- Modelled from the spec: the Pool Configuration Store (`ActorPoolConfig`,
an external collaborator per §2/§3): an insertion-ordered map from process
index to its pool entry, mutated only through the accessors below. -/
structure ActorPoolConfig where
  pools : List (Nat × PoolConfEntry)
deriving Repr, DecidableEq

/-- Modelled from the spec: `ActorPoolConfig.get_process_indexes` (insertion
order of the `pools` dict). -/
def ActorPoolConfig.get_process_indexes (c : ActorPoolConfig) : List Nat :=
  c.pools.map Prod.fst

/-- Modelled from the spec: `ActorPoolConfig.get_pool_config(process_index)`. -/
def ActorPoolConfig.get_pool_config (c : ActorPoolConfig) (idx : Nat) :
    Option PoolConfEntry :=
  (c.pools.find? (fun p => p.1 = idx)).map Prod.snd

/-- Modelled from the spec: `ActorPoolConfig.add_pool_conf` appends one entry
for a fresh process index. -/
def ActorPoolConfig.add_pool_conf (c : ActorPoolConfig) (idx : Nat)
    (e : PoolConfEntry) : ActorPoolConfig :=
  ⟨c.pools ++ [(idx, e)]⟩

/-- Modelled from the spec: `ActorPoolConfig.remove_pool_config(process_index)`. -/
def ActorPoolConfig.remove_pool_config (c : ActorPoolConfig) (idx : Nat) :
    ActorPoolConfig :=
  ⟨c.pools.filter (fun p => p.1 ≠ idx)⟩

/-- Modelled from the spec: `ActorPoolConfig.get_process_index(address)` —
the index of the entry whose external addresses contain `address`. -/
def ActorPoolConfig.get_process_index (c : ActorPoolConfig) (addr : String) :
    Option Nat :=
  (c.pools.find? (fun p => p.2.external_address.contains addr)).map Prod.fst

/-- Modelled from the spec: `ActorPoolConfig.reset_pool_external_address`
rewrites the external address stored for `idx` (used after the spawn
handshake resolves port 0 to the OS-chosen port). -/
def ActorPoolConfig.reset_pool_external_address (c : ActorPoolConfig)
    (idx : Nat) (addr : String) : ActorPoolConfig :=
  ⟨c.pools.map (fun p => if p.1 = idx then (p.1, { p.2 with external_address := [addr] }) else p)⟩

/-- The state of a `MainActorPool` the lifecycle operations touch:
the Configuration Store, the `sub_processes` map (external address →
process handle), the pool's own external address, the `_auto_recover`
policy and the `_allocated_actors` registry (address → insertion-ordered
map whose values are `(actor_ref, create_actor_message)` pairs). -/
structure MainPoolState where
  external_address : String
  config : ActorPoolConfig
  sub_processes : List (String × Process)
  auto_recover : String := "actor"
  allocated_actors : List (String × List (Nat × CreateActorMessage)) := []
deriving Repr, DecidableEq

/-! ## `MainActorPool.wait_sub_pools_ready` (pool.py lines 258-276)

Each awaited launch task yields a `(process, status)` pair; the embedding
takes the list of already-awaited results. -/

/-- Outcome of `wait_sub_pools_ready`: the processes it killed (all of them,
before raising) and either the raised error or the returned
`(processes, ext_addresses)` pair. -/
structure WaitResult where
  killed : List Process
  result : Except PyErr (List Process × List (Option (List String)))
deriving Repr, DecidableEq

/-- The loop of `wait_sub_pools_ready`: accumulate every process, remember
the (last) failure rewritten with `with_traceback`, collect external
addresses of successful launches; afterwards kill everything and raise if a
failure was seen.  A failure record whose `error` field is `None` would make
`status.error.with_traceback` itself raise an `AttributeError` mid-loop,
killing nothing — kept faithfully. -/
def waitGo : List (Process × SubpoolStatus) → List Process →
    List (Option (List String)) → Option PyErr → WaitResult
  | [], procs, exts, err =>
    match err with
    | some e => { killed := procs, result := .error e }
    | none => { killed := [], result := .ok (procs, exts) }
  | (p, s) :: rest, procs, exts, err =>
    let procs' := procs ++ [p]
    if s.status = some 1 then
      match s.error with
      | none =>
        { killed := [],
          result := .error { name := "AttributeError",
                             msg := "NoneType object has no attribute with_traceback" } }
      | some e => waitGo rest procs' exts (some { e with tb := s.traceback })
    else waitGo rest procs' (exts ++ [s.external_addresses]) err

/-- `MainActorPool.wait_sub_pools_ready`. -/
def wait_sub_pools_ready (results : List (Process × SubpoolStatus)) : WaitResult :=
  waitGo results [] [] none

/-! ## `MainActorPool.kill_sub_pool` (the Shutdown Sequencer, pool.py
lines 462-480) -/

/-- One observable step of the shutdown escalation. -/
inductive KillEvent where
  | sigint (pid : Nat)
  | sigterm (pid : Nat)
  | joinWait (seconds : Nat)
  | sigkill (pid : Nat)
deriving Repr, DecidableEq

/-- `MainActorPool.kill_sub_pool` as the sequence of signals and bounded
waits it performs.  `aliveAfterGrace` records whether the process is still
alive once the 3-second grace join returns; the code never consults it —
`process.kill()` runs unconditionally.  `isWindows` embeds the module-level
`_is_windows` flag guarding the `os.kill(..., SIGINT)` step. -/
def kill_sub_pool (isWindows : Bool) (process : Process)
    (aliveAfterGrace : Bool) (force : Bool) : List KillEvent :=
  let _ := aliveAfterGrace
  (if force then []
   else
     (if isWindows then [] else [.sigint process.pid]) ++
     [.sigterm process.pid, .joinWait 3]) ++
  [.sigkill process.pid, .joinWait 5]

/-! ## `MainActorPool._create_sub_pool` (the worker-side bootstrap
coroutine, pool.py lines 323-356) -/

/-- Observable milestones of `_create_sub_pool`: creating the sub pool,
`pool.start()`, enqueueing one `SubpoolStatus` on the status queue, and the
long-running `pool.join()` serve phase. -/
inductive CSPEvent where
  | createPool
  | startPool
  | put (s : SubpoolStatus)
  | serve
deriving Repr, DecidableEq

def isPutEvent : CSPEvent → Bool
  | .put _ => true
  | _ => false

/-- `MainActorPool._create_sub_pool`, with `createResult` the outcome of the
fallible prefix of the `try` block (config/env handling and
`SubActorPool.create`) and `startResult` the outcome of `await pool.start()`.
The success `SubpoolStatus` is built before `pool.start()` but only enqueued
by the `finally`, which runs exactly once on every path; a failure inside
the `try` overwrites it with a status-1 record before the `finally` fires,
and the bare `raise` then propagates (second component). -/
def _create_sub_pool (cfg : PoolConfEntry)
    (createResult startResult : Except PyErr Unit) :
    List CSPEvent × Except PyErr Unit :=
  match createResult with
  | .error e =>
    ([.put { status := some 1, error := some e, traceback := e.tb }], .error e)
  | .ok _ =>
    match startResult with
    | .error e =>
      ([.createPool,
        .put { status := some 1, error := some e, traceback := e.tb }], .error e)
    | .ok _ =>
      ([.createPool, .startPool,
        .put { status := some 0, external_addresses := some cfg.external_address },
        .serve], .ok ())

/-! ## `_pre_set_env_in_main` (pool.py lines 137-159) -/

/-- Lock/environ events of the environment pre-application step. -/
inductive PreSetEvent where
  | acquire (lockId : Nat)
  | setEnviron
  | restoreEnviron
  | release (lockId : Nat)
deriving Repr, DecidableEq

/-- The module-level `_PRE_SET_ENV_LOCK = asyncio.Lock()`: a single global
lock, identified by a fixed id. -/
def PRE_SET_ENV_LOCK : Nat := 0

/-- `os.environ` lookup. -/
def lookupEnviron (environ : List (String × String)) (k : String) : Option String :=
  lookupKey environ k

/-- `bool(int(os.getenv("XOSCAR_PRE_SET_ENV", 0)))`: default 0 when unset,
`ValueError` on a non-integer value, otherwise nonzero means enabled. -/
def preSetFlag (environ : List (String × String)) : Except PyErr Bool :=
  match lookupEnviron environ "XOSCAR_PRE_SET_ENV" with
  | none => .ok false
  | some s =>
    match parsePyInt s with
    | none => .error { name := "ValueError", msg := "invalid literal for int() with base 10" }
    | some n => .ok (n ≠ 0)

/-- One run of the `_pre_set_env_in_main` context manager around a body (the
blocking spawn): the lock/environ events it performs, the environ the body
observes, the environ left behind after the manager exits, and the body's
own outcome passed through. -/
structure PreSetRun where
  events : List PreSetEvent
  bodyEnviron : List (String × String)
  finalEnviron : List (String × String)
  result : Except PyErr Unit
deriving Repr, DecidableEq

/-- `_pre_set_env_in_main(env)` around a spawn whose outcome is `body`.
The flag is parsed first (a malformed value raises before anything runs);
when disabled or `env` is falsy the manager just yields; otherwise it copies
`os.environ`, takes the global lock, applies `env`, runs the body, and the
`finally` restores the copied environ — also when the body failed. -/
def _pre_set_env_in_main (environ : List (String × String))
    (env : List (String × String)) (body : Except PyErr Unit) :
    Except PyErr PreSetRun :=
  match preSetFlag environ with
  | .error e => .error e
  | .ok flag =>
    if ¬flag ∨ env = [] then
      .ok { events := [], bodyEnviron := environ, finalEnviron := environ,
            result := body }
    else
      let globalEnviron := environ
      .ok { events := [.acquire PRE_SET_ENV_LOCK, .setEnviron,
                       .restoreEnviron, .release PRE_SET_ENV_LOCK],
            bodyEnviron := dictUpdate environ env,
            finalEnviron := globalEnviron,
            result := body }

/-! ## `MainActorPool.append_sub_pool` (pool.py lines 358-443) -/

/-- Observable milestones of `append_sub_pool`.  `spawnBlock` marks entering
the `_pre_set_env_in_main` + executor spawn block. -/
inductive AppendEvent where
  | addPoolConf (idx : Nat)
  | spawnBlock
  | resetExternalAddress (idx : Nat) (addr : String)
  | attachSubProcess (addr : String)
  | broadcastSyncConfig
deriving Repr, DecidableEq

/-- Keyword arguments of `append_sub_pool`, all defaulting to `None`. -/
structure AppendArgs where
  label : Option String := none
  internal_address : Option String := none
  external_address : Option String := none
  env : Option (List (String × String)) := none
  modules : Option (List String) := none
  suspend_sigint : Option Bool := none
  use_uvloop : Option Bool := none
  logging_conf : Option String := none
  kwargs : Option String := none
deriving Repr, DecidableEq

/-- Outcome of `append_sub_pool`: the pool state when the call returns or
raises, the milestones reached, and the returned resolved address or the
raised error. -/
structure AppendResult where
  state : MainPoolState
  events : List AppendEvent
  result : Except PyErr String
deriving Repr, DecidableEq

/-- `external_address or get_external_addresses(self.external_address,
n_process=1)[-1]` (pool.py lines 372-377): Python `or` treats an empty
string like `None`. -/
def resolveAppendExternalAddress (st : MainPoolState) (args : AppendArgs) :
    Except PyErr String :=
  let defaultExt : Except PyErr String :=
    match get_external_addresses st.external_address 1 none none with
    | .error e => .error e
    | .ok addrs => .ok (addrs.getLastD "")
  match args.external_address with
  | some a => if a = "" then defaultExt else .ok a
  | none => defaultExt

/-- `MainActorPool.append_sub_pool`.  `newProcessIndex` is the value drawn
from `process_index_gen` (the base class's monotone generator),
`hasUnixSocket` feeds `gen_internal_address`, and `launch` is the outcome of
the `_pre_set_env_in_main` + executor block: either a raised error or the
`(process, process_status)` pair from `start_pool_in_process`.  Note the
code never checks `process_status.status`: a worker-reported failure
surfaces as the `TypeError` from subscripting `external_addresses = None`,
after the Store was already mutated — there is no rollback. -/
def append_sub_pool (st : MainPoolState) (args : AppendArgs)
    (newProcessIndex : Nat) (hasUnixSocket : Bool)
    (launch : Except PyErr (Process × SubpoolStatus)) : AppendResult :=
  match resolveAppendExternalAddress st args with
  | .error e => { state := st, events := [], result := .error e }
  | .ok externalAddress =>
    match st.config.get_process_indexes.getLast? with
    | none =>
      { state := st, events := [],
        result := .error { name := "IndexError", msg := "list index out of range" } }
    | some lastProcessIndex =>
      match st.config.get_pool_config lastProcessIndex with
      | none =>
        { state := st, events := [],
          result := .error { name := "KeyError", msg := toString lastProcessIndex } }
      | some lastConf =>
        -- `logging_conf or last_logging_conf` / explicit `is not None` test
        let lLoggingConf := match args.logging_conf with
          | some lc => some lc
          | none => lastConf.logging_conf
        let lUseUvloop := match args.use_uvloop with
          | some b => some b
          | none => lastConf.use_uvloop
        let internalAddress := match args.internal_address with
          | some ia =>
            if ia = "" then gen_internal_address hasUnixSocket newProcessIndex (some externalAddress)
            else some ia
          | none => gen_internal_address hasUnixSocket newProcessIndex (some externalAddress)
        let newEntry : PoolConfEntry :=
          { label := args.label, internal_address := internalAddress,
            external_address := [externalAddress], env := args.env,
            modules := args.modules, suspend_sigint := args.suspend_sigint,
            use_uvloop := lUseUvloop, logging_conf := lLoggingConf,
            kwargs := args.kwargs }
        let st1 := { st with config := st.config.add_pool_conf newProcessIndex newEntry }
        match launch with
        | .error e =>
          { state := st1, events := [.addPoolConf newProcessIndex, .spawnBlock],
            result := .error e }
        | .ok (process, process_status) =>
          match process_status.external_addresses with
          | none =>
            { state := st1, events := [.addPoolConf newProcessIndex, .spawnBlock],
              result := .error { name := "TypeError",
                                 msg := "NoneType object is not subscriptable" } }
          | some [] =>
            { state := st1, events := [.addPoolConf newProcessIndex, .spawnBlock],
              result := .error { name := "IndexError", msg := "list index out of range" } }
          | some (resolved :: _) =>
            let st2 := { st1 with
              config := st1.config.reset_pool_external_address newProcessIndex resolved,
              sub_processes := setAssoc st1.sub_processes resolved process }
            { state := st2,
              events := [.addPoolConf newProcessIndex, .spawnBlock,
                         .resetExternalAddress newProcessIndex resolved,
                         .attachSubProcess resolved, .broadcastSyncConfig],
              result := .ok resolved }

/-! ## `MainActorPool.remove_sub_pool` (pool.py lines 445-460) -/

/-- Observable steps of `remove_sub_pool`. -/
inductive RemoveEvent where
  | stop (addr : String)
  | delSubProcess (addr : String)
  | delStoreEntry (idx : Nat)
  | broadcastSyncConfig
deriving Repr, DecidableEq

/-- The execution of `remove_sub_pool`: each step paired with the pool state
right after it, plus the final state. -/
structure RemoveRun where
  trace : List (RemoveEvent × MainPoolState)
  final : MainPoolState
deriving Repr, DecidableEq

/-- `MainActorPool.remove_sub_pool`: look up the handle (KeyError when
absent) and the process index, drive `stop_sub_pool` (the Shutdown
Sequencer), `del self.sub_processes[external_address]`, then
`self._config.remove_pool_config(process_index)`, then broadcast the
sync-config control message — in exactly that order. -/
def remove_sub_pool (st : MainPoolState) (external_address : String) :
    Except PyErr RemoveRun :=
  match lookupKey st.sub_processes external_address with
  | none => .error { name := "KeyError", msg := external_address }
  | some _process =>
    match st.config.get_process_index external_address with
    | none => .error { name := "ValueError", msg := "cannot get process index" }
    | some process_index =>
      let st1 := { st with sub_processes := removeKey st.sub_processes external_address }
      let st2 := { st1 with config := st1.config.remove_pool_config process_index }
      .ok { trace := [(.stop external_address, st),
                      (.delSubProcess external_address, st1),
                      (.delStoreEntry process_index, st2),
                      (.broadcastSyncConfig, st2)],
            final := st2 }

/-! ## `MainActorPool.recover_sub_pool` (pool.py lines 492-505) -/

/-- Outcome of `recover_sub_pool`: the pool state afterwards, the creation
messages re-sent to the respawned worker (in sending order), and whether the
coroutine raised. -/
structure RecoverResult where
  state : MainPoolState
  sentMessages : List CreateActorMessage
  result : Except PyErr Unit
deriving Repr, DecidableEq

/-- `MainActorPool.recover_sub_pool(address)`: restart the dead worker via
`start_sub_pool`/`wait_sub_pools_ready` (the `launch` parameter is the
awaited `(process, status)` of the respawn), store the fresh handle under
the same address, and — only when `self._auto_recover == "actor"` — replay
the `(_, message)` values of `self._allocated_actors[address]` in recorded
order. -/
def recover_sub_pool (st : MainPoolState) (address : String)
    (launch : Process × SubpoolStatus) : RecoverResult :=
  match st.config.get_process_index address with
  | none =>
    { state := st, sentMessages := [],
      result := .error { name := "ValueError", msg := "cannot get process index" } }
  | some _process_index =>
    let wr := wait_sub_pools_ready [launch]
    match wr.result with
    | .error e => { state := st, sentMessages := [], result := .error e }
    | .ok (procs, _exts) =>
      let st1 := { st with
        sub_processes := setAssoc st.sub_processes address (procs.headD ⟨0⟩) }
      if st.auto_recover = "actor" then
        { state := st1,
          sentMessages := ((lookupKey st.allocated_actors address).getD []).map Prod.snd,
          result := .ok () }
      else
        { state := st1, sentMessages := [], result := .ok () }

/-! ## Helper lemmas -/

theorem string_empty_append (s : String) : "" ++ s = s := by
  cases s with
  | mk data => rfl

theorem zipWith_prefix_replicate (host : String) (l : List Int) :
    List.zipWith (fun p pre => pre ++ addrOf host p) l (List.replicate l.length "") =
      l.map (addrOf host) := by
  induction l with
  | nil => rfl
  | cons x xs ih => simp [List.replicate_succ, ih, string_empty_append]

theorem lookupKey_removeKey {β : Type} (m : List (String × β)) (k : String) :
    lookupKey (removeKey m k) k = none := by
  induction m with
  | nil => rfl
  | cons x xs ih =>
    obtain ⟨k', v⟩ := x
    by_cases h : k' = k
    · simpa [removeKey, h] using ih
    · simp [removeKey, lookupKey, h, ih]

/-- Whenever `resolveHostPorts` succeeds, there is exactly one sub-port per
worker. -/
theorem resolveHostPorts_subPorts_length (address : String) (n : Nat)
    (ports : Option (List Int)) (host : String) (port : Int) (subPorts : List Int)
    (h : resolveHostPorts address n ports = .ok (host, port, subPorts)) :
    subPorts.length = n := by
  unfold resolveHostPorts at h
  split at h
  · split at h
    · exact absurd h (by simp)
    · split at h
      · split at h
        · exact absurd h (by simp)
        · rename_i hne hlen
          simp only [Except.ok.injEq, Prod.mk.injEq] at h
          obtain ⟨-, -, rfl⟩ := h
          omega
      · simp only [Except.ok.injEq, Prod.mk.injEq] at h
        obtain ⟨-, -, rfl⟩ := h
        simp
  · split at h
    · exact absurd h (by simp)
    · split at h
      · simp only [Except.ok.injEq, Prod.mk.injEq] at h
        obtain ⟨-, -, rfl⟩ := h
        simp
      · rename_i hcond hne
        simp only [Except.ok.injEq, Prod.mk.injEq] at h
        obtain ⟨-, -, rfl⟩ := h
        have hlen : (ports.getD []).length = n + 1 := by
          by_cases hq : (ports.getD []).length = n + 1
          · exact hq
          · exact absurd ⟨hne, hq⟩ hcond
        simp [hlen]

theorem resolveHostPorts_colon_mismatch (address : String) (n : Nat)
    (ps : List Int) (bp : Int)
    (hc : containsColon address = true) (hp : parsedPort address = some bp)
    (hne : ps ≠ []) (hlen : ps.length ≠ n) :
    resolveHostPorts address n (some ps) =
      .error { name := "ValueError",
               msg := "ports specified, but its count is not equal to n_process, number of ports: "
                 ++ toString ps.length ++ ", n_process: " ++ toString n } := by
  simp [resolveHostPorts, hc, hp, hne, hlen]

theorem resolveHostPorts_colon_ok (address : String) (n : Nat)
    (ps : List Int) (bp : Int)
    (hc : containsColon address = true) (hp : parsedPort address = some bp)
    (hne : ps ≠ []) (hlen : ps.length = n) :
    resolveHostPorts address n (some ps) = .ok (parsedHost address, bp, ps) := by
  simp [resolveHostPorts, hc, hp, hne, hlen]

theorem resolveHostPorts_colon_default (address : String) (n : Nat)
    (ports : Option (List Int)) (bp : Int)
    (hc : containsColon address = true) (hp : parsedPort address = some bp)
    (hdef : ports.getD [] = []) :
    resolveHostPorts address n ports =
      .ok (parsedHost address, bp, List.replicate n 0) := by
  simp [resolveHostPorts, hc, hp, hdef]

theorem resolveHostPorts_bare_mismatch (address : String) (n : Nat)
    (ps : List Int)
    (hc : containsColon address = false)
    (hne : ps ≠ []) (hlen : ps.length ≠ n + 1) :
    resolveHostPorts address n (some ps) =
      .error { name := "ValueError",
               msg := "ports specified, but its count is not equal to n_process + 1, number of ports: "
                 ++ toString ps.length ++ ", n_process + 1: " ++ toString (n + 1) } := by
  simp [resolveHostPorts, hc, hne, hlen]

theorem resolveHostPorts_bare_ok (address : String) (n : Nat)
    (ps : List Int)
    (hc : containsColon address = false)
    (hne : ps ≠ []) (hlen : ps.length = n + 1) :
    resolveHostPorts address n (some ps) = .ok (address, ps.headD 0, ps.tail) := by
  simp [resolveHostPorts, hc, hne, hlen]

theorem resolveHostPorts_bare_default (address : String) (n : Nat)
    (ports : Option (List Int))
    (hc : containsColon address = false)
    (hdef : ports.getD [] = []) :
    resolveHostPorts address n ports =
      .ok (address, 0, List.replicate n 0) := by
  simp [resolveHostPorts, hc, hdef]

/-- With no schemes, a successful resolution yields plain `host:port`
addresses, main first. -/
theorem get_external_addresses_of_resolve (address : String) (n : Nat)
    (ports : Option (List Int)) (host : String) (port : Int) (subPorts : List Int)
    (h : resolveHostPorts address n ports = .ok (host, port, subPorts)) :
    get_external_addresses address n ports none =
      .ok (addrOf host port :: subPorts.map (addrOf host)) := by
  simp only [get_external_addresses, h]
  simpa using zipWith_prefix_replicate host (port :: subPorts)

/-- Any successful `get_external_addresses` call produced its list from a
successful `resolveHostPorts`. -/
theorem get_external_addresses_ok_inv (address : String) (n : Nat)
    (ports : Option (List Int)) (schemes : Option (List (Option String)))
    (l : List String)
    (h : get_external_addresses address n ports schemes = .ok l) :
    ∃ host port subPorts,
      resolveHostPorts address n ports = .ok (host, port, subPorts) := by
  unfold get_external_addresses at h
  split at h
  · exact absurd h (by simp)
  · rename_i host port subPorts heq
    exact ⟨host, port, subPorts, heq⟩

/-! ## Claim C4 — explicit port lists -/

/-- C4 (counterexample): the claim says any supplied port list whose length
differs from the required count fails with a configuration error, but a
supplied EMPTY list (length 0 ≠ n_process = 1) is falsy in Python, is
treated as if no list were given, and the call succeeds with port-0
defaults instead of raising. -/
theorem get_external_addresses_empty_ports_no_error :
    get_external_addresses "localhost:80" 1 (some []) none =
      .ok ["localhost:80", "localhost:0"] := by decide

/-- C4 (amended): for `n_process ≥ 1`, a supplied NON-EMPTY port list must
have exactly `n_process` entries when the base address carries a port
(worker ports positional, main port from the base address) and exactly
`n_process + 1` entries when it does not (all ports positional, main
first); any other non-empty supplied length raises a `ValueError` before
any process is spawned; with no effective list (absent or empty) every
unspecified port is 0.  A supplied empty list is treated as absent — the
only departure from the claim as stated. -/
theorem get_external_addresses_ports_spec (address : String) (n : Nat)
    (basePort : Int) (ports : Option (List Int)) (hn : 1 ≤ n) :
    (containsColon address = true → parsedPort address = some basePort →
      ((∀ ps, ports = some ps → ps ≠ [] → ps.length ≠ n →
         ∃ m, get_external_addresses address n ports none =
           .error { name := "ValueError", msg := m, tb := none }) ∧
       (∀ ps, ports = some ps → ps.length = n →
         get_external_addresses address n ports none =
           .ok (addrOf (parsedHost address) basePort ::
                ps.map (addrOf (parsedHost address)))) ∧
       (ports.getD [] = [] →
         get_external_addresses address n ports none =
           .ok (addrOf (parsedHost address) basePort ::
                List.replicate n (addrOf (parsedHost address) 0))))) ∧
    (containsColon address = false →
      ((∀ ps, ports = some ps → ps ≠ [] → ps.length ≠ n + 1 →
         ∃ m, get_external_addresses address n ports none =
           .error { name := "ValueError", msg := m, tb := none }) ∧
       (∀ ps, ports = some ps → ps.length = n + 1 →
         get_external_addresses address n ports none = .ok (ps.map (addrOf address))) ∧
       (ports.getD [] = [] →
         get_external_addresses address n ports none =
           .ok (List.replicate (n + 1) (addrOf address 0))))) := by
  constructor
  · intro hc hp
    refine ⟨?_, ?_, ?_⟩
    · intro ps hps hne hlen
      subst hps
      refine ⟨"ports specified, but its count is not equal to n_process, number of ports: "
          ++ toString ps.length ++ ", n_process: " ++ toString n, ?_⟩
      simp [get_external_addresses,
        resolveHostPorts_colon_mismatch address n ps basePort hc hp hne hlen]
    · intro ps hps hlen
      subst hps
      have hne : ps ≠ [] := by
        intro hnil
        rw [hnil] at hlen
        simp at hlen
        omega
      rw [get_external_addresses_of_resolve address n (some ps)
        (parsedHost address) basePort ps
        (resolveHostPorts_colon_ok address n ps basePort hc hp hne hlen)]
    · intro hdef
      rw [get_external_addresses_of_resolve address n ports
        (parsedHost address) basePort (List.replicate n 0)
        (resolveHostPorts_colon_default address n ports basePort hc hp hdef)]
      simp [addrOf]
  · intro hc
    refine ⟨?_, ?_, ?_⟩
    · intro ps hps hne hlen
      subst hps
      refine ⟨"ports specified, but its count is not equal to n_process + 1, number of ports: "
          ++ toString ps.length ++ ", n_process + 1: " ++ toString (n + 1), ?_⟩
      simp [get_external_addresses,
        resolveHostPorts_bare_mismatch address n ps hc hne hlen]
    · intro ps hps hlen
      subst hps
      have hne : ps ≠ [] := by
        intro hnil
        rw [hnil] at hlen
        simp at hlen
      rw [get_external_addresses_of_resolve address n (some ps)
        address (ps.headD 0) ps.tail
        (resolveHostPorts_bare_ok address n ps hc hne hlen)]
      cases ps with
      | nil => exact absurd rfl hne
      | cons p0 rest => rfl
    · intro hdef
      rw [get_external_addresses_of_resolve address n ports
        address 0 (List.replicate n 0)
        (resolveHostPorts_bare_default address n ports hc hdef)]
      simp [List.replicate_succ, addrOf]

/-- C4 (witness): a conforming two-port list for a port-carrying base
address, via `get_external_addresses_ports_spec`. -/
theorem get_external_addresses_ports_witness :
    get_external_addresses "localhost:80" 2 (some [11, 12]) none =
      .ok ["localhost:80", "localhost:11", "localhost:12"] := by
  have h := ((get_external_addresses_ports_spec "localhost:80" 2 80 (some [11, 12])
      (by omega)).1 (by decide) (by decide)).2.1 [11, 12] rfl (by decide)
  rw [h]
  rfl

/-! ## Claim C9 — schemes truncation -/

/-- C9 (counterexample): a SUPPLIED empty schemes list has fewer entries (0)
than `n_process + 1 = 2`, yet the result is not truncated to length 0: the
empty list is falsy, is treated as absent, and all `n_process + 1`
addresses are returned. -/
theorem get_external_addresses_empty_schemes_not_truncated :
    get_external_addresses "localhost" 1 none (some []) =
      .ok ["localhost:0", "localhost:0"] := by decide

/-- C9 (amended): a supplied NON-EMPTY schemes list with fewer entries than
`n_process + 1` silently truncates the returned address list (via `zip`) to
the length of the schemes list, with no error; when `schemes` is absent the
result has exactly `n_process + 1` entries.  A supplied empty schemes list
behaves as absent — the only departure from the claim as stated. -/
theorem get_external_addresses_schemes_spec (address : String) (n : Nat)
    (ports : Option (List Int)) (ss : List (Option String)) :
    ((∃ l0, get_external_addresses address n ports none = .ok l0) → ss ≠ [] →
      ss.length < n + 1 →
      ∃ l, get_external_addresses address n ports (some ss) = .ok l ∧
        l.length = ss.length) ∧
    (∀ l, get_external_addresses address n ports none = .ok l →
      l.length = n + 1) := by
  constructor
  · rintro ⟨l0, hl0⟩ hne hlt
    obtain ⟨host, port, subPorts, hres⟩ :=
      get_external_addresses_ok_inv address n ports none l0 hl0
    have hlen := resolveHostPorts_subPorts_length address n ports host port subPorts hres
    have hout : get_external_addresses address n ports (some ss) =
        .ok (List.zipWith (fun p pre => pre ++ addrOf host p) (port :: subPorts)
          (ss.map (fun s => match s with
            | none => ""
            | some sc => if sc = "" then "" else sc ++ "://"))) := by
      simp [get_external_addresses, hres, hne]
    refine ⟨_, hout, ?_⟩
    simp only [List.length_zipWith, List.length_map, List.length_cons, hlen]
    omega
  · intro l hl
    obtain ⟨host, port, subPorts, hres⟩ :=
      get_external_addresses_ok_inv address n ports none l hl
    have hlen := resolveHostPorts_subPorts_length address n ports host port subPorts hres
    rw [get_external_addresses_of_resolve address n ports host port subPorts hres] at hl
    injection hl with hl'
    subst hl'
    simp [hlen]

/-- C9 (witness): one scheme entry against `n_process = 2` truncates the
result to a single address, via `get_external_addresses_schemes_spec`. -/
theorem get_external_addresses_schemes_witness :
    ∃ l, get_external_addresses "localhost" 2 none (some [some "ucx"]) = .ok l ∧
      l.length = 1 :=
  (get_external_addresses_schemes_spec "localhost" 2 none [some "ucx"]).1
    ⟨["localhost:0", "localhost:0", "localhost:0"], by decide⟩ (by decide) (by decide)

/-! ## Claim C3 — shutdown escalation -/

/-- C3 (counterexample): a worker that is already dead once the 3-second
grace join returns (`aliveAfterGrace = false`) is still sent the forceful
kill — the code calls `process.kill()` unconditionally, with no aliveness
check, so the claimed "only if the process is still alive" is false. -/
theorem kill_sub_pool_kills_dead_process :
    KillEvent.sigkill 7 ∈ kill_sub_pool false ⟨7⟩ false false := by decide

/-- C3 (amended): the non-forced path sends SIGINT (skipped on Windows),
then SIGTERM, waits up to 3 time units, and then ALWAYS sends the forceful
kill followed by the bounded 5-unit wait — whether or not the process is
still alive after the grace period; the forced path skips directly to the
kill and the 5-unit wait, exactly as the claim states. -/
theorem kill_sub_pool_escalation (isWindows aliveAfterGrace : Bool) (p : Process) :
    (kill_sub_pool isWindows p aliveAfterGrace false =
      (if isWindows then [] else [.sigint p.pid]) ++
      [.sigterm p.pid, .joinWait 3, .sigkill p.pid, .joinWait 5]) ∧
    (kill_sub_pool isWindows p aliveAfterGrace true =
      [.sigkill p.pid, .joinWait 5]) := by
  constructor <;> cases isWindows <;> rfl

/-! ## Claim C2 — ordering inside `remove_sub_pool` -/

/-- A two-worker pool used to exercise `remove_sub_pool`. -/
def rst0 : MainPoolState :=
  { external_address := "1.2.3.4:1",
    config := ⟨[(0, { external_address := ["1.2.3.4:1"] }),
                (1, { external_address := ["1.2.3.4:100"] })]⟩,
    sub_processes := [("1.2.3.4:100", ⟨42⟩)] }

/-- C2 (counterexample): the claim says the Store entry is deleted before
the `sub_processes` entry, so the Store never references an address with no
handle.  The actual step order is stop → `del sub_processes[...]` →
`remove_pool_config`, and right after the `sub_processes` deletion (second
trace entry) the Store still resolves the address while the handle is
already gone — the dangling window the claim says cannot occur. -/
theorem remove_sub_pool_dangling_store_window :
    ((remove_sub_pool rst0 "1.2.3.4:100").toOption.map
        (fun r => r.trace.map Prod.fst) =
      some [.stop "1.2.3.4:100", .delSubProcess "1.2.3.4:100",
            .delStoreEntry 1, .broadcastSyncConfig]) ∧
    ((remove_sub_pool rst0 "1.2.3.4:100").toOption.map
        (fun r => r.trace.map (fun q =>
          ((q.2.config.get_process_index "1.2.3.4:100").isSome,
           (lookupKey q.2.sub_processes "1.2.3.4:100").isSome))) =
      some [(true, true), (true, false), (false, false), (false, false)]) := by
  decide

/-- C2 (amended): for an address present in `sub_processes` and the Store,
`remove_sub_pool` drives the Shutdown Sequencer to completion first, then
deletes the entry from `sub_processes`, then from the Configuration Store,
then broadcasts the sync-config control message — so between the two
deletions the Store briefly contains a reference to an address that has no
process handle (the converse of the window the claim describes). -/
theorem remove_sub_pool_order (st : MainPoolState) (addr : String)
    (p : Process) (idx : Nat)
    (hp : lookupKey st.sub_processes addr = some p)
    (hidx : st.config.get_process_index addr = some idx) :
    remove_sub_pool st addr = .ok {
      trace := [(.stop addr, st),
                (.delSubProcess addr,
                  { st with sub_processes := removeKey st.sub_processes addr }),
                (.delStoreEntry idx,
                  { st with sub_processes := removeKey st.sub_processes addr,
                            config := st.config.remove_pool_config idx }),
                (.broadcastSyncConfig,
                  { st with sub_processes := removeKey st.sub_processes addr,
                            config := st.config.remove_pool_config idx })],
      final := { st with sub_processes := removeKey st.sub_processes addr,
                         config := st.config.remove_pool_config idx } } ∧
    lookupKey (removeKey st.sub_processes addr) addr = none := by
  exact ⟨by simp [remove_sub_pool, hp, hidx], lookupKey_removeKey _ _⟩

/-- C2 (witness): the amended ordering on the concrete two-worker pool, via
`remove_sub_pool_order`. -/
theorem remove_sub_pool_order_witness :
    (remove_sub_pool rst0 "1.2.3.4:100").toOption.map
        (fun r => r.trace.map Prod.fst) =
      some [.stop "1.2.3.4:100", .delSubProcess "1.2.3.4:100",
            .delStoreEntry 1, .broadcastSyncConfig] := by
  have h := remove_sub_pool_order rst0 "1.2.3.4:100" ⟨42⟩ 1 (by decide) (by decide)
  rw [h.1]
  rfl

/-! ## Claims C1 and C10 — `append_sub_pool` failure behaviour -/

/-- A one-worker pool used to exercise `append_sub_pool`. -/
def ast0 : MainPoolState :=
  { external_address := "127.0.0.1:1111",
    config := ⟨[(0, { external_address := ["127.0.0.1:1111"],
                      use_uvloop := some false })]⟩,
    sub_processes := [] }

/-- A launch whose worker reported a failure status (spawn succeeded,
bootstrap raised): `status = 1`, `external_addresses = None`. -/
def failedLaunch : Except PyErr (Process × SubpoolStatus) :=
  .ok (⟨5⟩, { status := some 1,
              error := some { name := "RuntimeError", msg := "boom" } })

/-- C1 (counterexample): after a worker-reported launch failure,
`append_sub_pool` raises (the `TypeError` from subscripting
`external_addresses = None`) — but the pool entry added to the
Configuration Store for the new process index is still there: the Store is
NOT "exactly as it was before the call".  (`sub_processes` is unchanged.) -/
theorem append_sub_pool_failure_retains_entry :
    ((append_sub_pool ast0 {} 1 true failedLaunch).result =
      .error { name := "TypeError", msg := "NoneType object is not subscriptable" }) ∧
    (append_sub_pool ast0 {} 1 true failedLaunch).state.sub_processes =
      ast0.sub_processes ∧
    (append_sub_pool ast0 {} 1 true failedLaunch).state.config ≠ ast0.config := by
  decide

/-- C1 (amended): a failed `append_sub_pool` never attaches a process
handle (`sub_processes` is exactly as before) and never broadcasts, but the
Configuration Store is only unchanged when the failure precedes the
`add_pool_conf` mutation; a failure after it (spawn error or
worker-reported failure) leaves exactly the one freshly added pool entry in
the Store — there is no rollback. -/
theorem append_sub_pool_failed_no_partial_handle (st : MainPoolState)
    (args : AppendArgs) (newIdx : Nat) (hasUnix : Bool)
    (launch : Except PyErr (Process × SubpoolStatus)) (e : PyErr)
    (hfail : (append_sub_pool st args newIdx hasUnix launch).result = .error e) :
    (append_sub_pool st args newIdx hasUnix launch).state.sub_processes =
      st.sub_processes ∧
    AppendEvent.broadcastSyncConfig ∉
      (append_sub_pool st args newIdx hasUnix launch).events ∧
    ((append_sub_pool st args newIdx hasUnix launch).state.config = st.config ∨
     ∃ entry, (append_sub_pool st args newIdx hasUnix launch).state.config =
       st.config.add_pool_conf newIdx entry) := by
  cases hre : resolveAppendExternalAddress st args with
  | error e1 =>
    simp [append_sub_pool, hre]
  | ok ea =>
    cases hlast : st.config.get_process_indexes.getLast? with
    | none =>
      simp [append_sub_pool, hre, hlast]
    | some lastIdx =>
      cases hconf : st.config.get_pool_config lastIdx with
      | none =>
        simp [append_sub_pool, hre, hlast, hconf]
      | some lastConf =>
        cases launch with
        | error e2 =>
          refine ⟨?_, ?_, .inr ?_⟩
          · simp [append_sub_pool, hre, hlast, hconf]
          · simp [append_sub_pool, hre, hlast, hconf]
          · simp only [append_sub_pool, hre, hlast, hconf]
            exact ⟨_, rfl⟩
        | ok pr =>
          obtain ⟨process, pstatus⟩ := pr
          cases hext : pstatus.external_addresses with
          | none =>
            refine ⟨?_, ?_, .inr ?_⟩
            · simp [append_sub_pool, hre, hlast, hconf, hext]
            · simp [append_sub_pool, hre, hlast, hconf, hext]
            · simp only [append_sub_pool, hre, hlast, hconf, hext]
              exact ⟨_, rfl⟩
          | some exts =>
            cases exts with
            | nil =>
              refine ⟨?_, ?_, .inr ?_⟩
              · simp [append_sub_pool, hre, hlast, hconf, hext]
              · simp [append_sub_pool, hre, hlast, hconf, hext]
              · simp only [append_sub_pool, hre, hlast, hconf, hext]
                exact ⟨_, rfl⟩
            | cons resolved rest =>
              exact absurd hfail (by
                simp [append_sub_pool, hre, hlast, hconf, hext])

/-- C1 (witness): the amended statement at the concrete failing launch, via
`append_sub_pool_failed_no_partial_handle`. -/
theorem append_sub_pool_failed_witness :
    (append_sub_pool ast0 {} 1 true failedLaunch).state.sub_processes =
      ast0.sub_processes ∧
    AppendEvent.broadcastSyncConfig ∉
      (append_sub_pool ast0 {} 1 true failedLaunch).events ∧
    ((append_sub_pool ast0 {} 1 true failedLaunch).state.config = ast0.config ∨
     ∃ entry, (append_sub_pool ast0 {} 1 true failedLaunch).state.config =
       ast0.config.add_pool_conf 1 entry) :=
  append_sub_pool_failed_no_partial_handle ast0 {} 1 true failedLaunch
    { name := "TypeError", msg := "NoneType object is not subscriptable" }
    (by decide)

/-- C10: `append_sub_pool` reads the last-registered process index
(`get_process_indexes()[-1]`) to default the new worker's logging and
event-loop settings, so on a pool whose configuration is empty — provided
the earlier external-address defaulting step itself succeeds — the call
raises an `IndexError`, mutates nothing, and reaches no milestone at all:
in particular no process is spawned. -/
theorem append_sub_pool_empty_config_index_error (st : MainPoolState)
    (args : AppendArgs) (newIdx : Nat) (hasUnix : Bool)
    (launch : Except PyErr (Process × SubpoolStatus)) (a : String)
    (hempty : st.config.pools = [])
    (hext : resolveAppendExternalAddress st args = .ok a) :
    append_sub_pool st args newIdx hasUnix launch =
      { state := st, events := [],
        result := .error { name := "IndexError", msg := "list index out of range" } } := by
  have hlast : st.config.get_process_indexes.getLast? = none := by
    simp [ActorPoolConfig.get_process_indexes, hempty]
  simp [append_sub_pool, hext, hlast]

/-- The empty pool used to witness C10. -/
def emptyPoolState : MainPoolState :=
  { external_address := "127.0.0.1:1111", config := ⟨[]⟩, sub_processes := [] }

/-- C10 (witness): on the concrete empty pool, via
`append_sub_pool_empty_config_index_error`. -/
theorem append_sub_pool_empty_config_witness :
    append_sub_pool emptyPoolState {} 0 true (.error { name := "unused" }) =
      { state := emptyPoolState, events := [],
        result := .error { name := "IndexError", msg := "list index out of range" } } :=
  append_sub_pool_empty_config_index_error emptyPoolState {} 0 true
    (.error { name := "unused" }) "127.0.0.1:0" rfl (by decide)

/-! ## Claim C5 — batch atomicity of `wait_sub_pools_ready` -/

/-- When no launch so far failed and none of the remaining ones fails, the
loop returns every process and every reported address list, killing
nothing. -/
theorem waitGo_no_failure (rs : List (Process × SubpoolStatus))
    (procs : List Process) (exts : List (Option (List String)))
    (hok : ∀ r ∈ rs, r.2.status ≠ some 1) :
    waitGo rs procs exts none =
      { killed := [],
        result := .ok (procs ++ rs.map Prod.fst,
                       exts ++ rs.map (fun r => r.2.external_addresses)) } := by
  induction rs generalizing procs exts with
  | nil => simp [waitGo]
  | cons r rest ih =>
    obtain ⟨p, s⟩ := r
    have hs : ¬(s.status = some 1) := hok (p, s) (by simp)
    rw [waitGo, if_neg hs, ih (procs ++ [p]) (exts ++ [s.external_addresses])
      (fun r h => hok r (by simp [h]))]
    simp

/-- Once a failure has been recorded, the loop accumulates every remaining
process, kills all of them, and raises either the recorded error or a later
failure's error (rewritten with its traceback). -/
theorem waitGo_with_error (rs : List (Process × SubpoolStatus))
    (procs : List Process) (exts : List (Option (List String))) (e0 : PyErr)
    (hwf : ∀ r ∈ rs, r.2.status = some 1 → r.2.error.isSome) :
    ∃ e, waitGo rs procs exts (some e0) =
      { killed := procs ++ rs.map Prod.fst, result := .error e } ∧
      (e = e0 ∨ ∃ r ∈ rs, r.2.status = some 1 ∧
        ∃ oe, r.2.error = some oe ∧ e = { oe with tb := r.2.traceback }) := by
  induction rs generalizing procs exts e0 with
  | nil => exact ⟨e0, by simp [waitGo], .inl rfl⟩
  | cons r rest ih =>
    obtain ⟨p, s⟩ := r
    by_cases hs : s.status = some 1
    · have herr := hwf (p, s) (by simp) hs
      cases hoe : s.error with
      | none => rw [hoe] at herr; simp at herr
      | some oe =>
        obtain ⟨e, he, hor⟩ := ih (procs ++ [p]) exts { oe with tb := s.traceback }
          (fun r h hf => hwf r (by simp [h]) hf)
        refine ⟨e, ?_, ?_⟩
        · rw [waitGo, if_pos hs]
          simp only [hoe]
          rw [he]
          simp
        · rcases hor with h1 | ⟨r', hr', hst, oe', hoe', heq⟩
          · exact .inr ⟨(p, s), by simp, hs, oe, hoe, h1⟩
          · exact .inr ⟨r', by simp [hr'], hst, oe', hoe', heq⟩
    · obtain ⟨e, he, hor⟩ := ih (procs ++ [p]) (exts ++ [s.external_addresses]) e0
        (fun r h hf => hwf r (by simp [h]) hf)
      refine ⟨e, ?_, ?_⟩
      · rw [waitGo, if_neg hs, he]
        simp
      · rcases hor with h1 | ⟨r', hr', hst, oe', hoe', heq⟩
        · exact .inl h1
        · exact .inr ⟨r', by simp [hr'], hst, oe', hoe', heq⟩

/-- If some launch in the remaining list failed (and failures are
well-formed), the loop kills every process of the batch and raises a
failing launch's error with its traceback attached. -/
theorem waitGo_failure (rs : List (Process × SubpoolStatus))
    (procs : List Process) (exts : List (Option (List String)))
    (hwf : ∀ r ∈ rs, r.2.status = some 1 → r.2.error.isSome)
    (hex : ∃ r ∈ rs, r.2.status = some 1) :
    ∃ e, waitGo rs procs exts none =
      { killed := procs ++ rs.map Prod.fst, result := .error e } ∧
      ∃ r ∈ rs, r.2.status = some 1 ∧ ∃ oe, r.2.error = some oe ∧
        e = { oe with tb := r.2.traceback } := by
  induction rs generalizing procs exts with
  | nil => simp at hex
  | cons r rest ih =>
    obtain ⟨p, s⟩ := r
    by_cases hs : s.status = some 1
    · have herr := hwf (p, s) (by simp) hs
      cases hoe : s.error with
      | none => rw [hoe] at herr; simp at herr
      | some oe =>
        obtain ⟨e, he, hor⟩ := waitGo_with_error rest (procs ++ [p]) exts
          { oe with tb := s.traceback } (fun r h hf => hwf r (by simp [h]) hf)
        refine ⟨e, ?_, ?_⟩
        · rw [waitGo, if_pos hs]
          simp only [hoe]
          rw [he]
          simp
        · rcases hor with h1 | ⟨r', hr', hst, oe', hoe', heq⟩
          · exact ⟨(p, s), by simp, hs, oe, hoe, h1⟩
          · exact ⟨r', by simp [hr'], hst, oe', hoe', heq⟩
    · have hex' : ∃ r ∈ rest, r.2.status = some 1 := by
        rcases hex with ⟨r', hmem, hst⟩
        rcases List.mem_cons.mp hmem with h | h
        · rw [h] at hst; exact absurd hst hs
        · exact ⟨r', h, hst⟩
      obtain ⟨e, he, r', hr', hrest⟩ := ih (procs ++ [p]) (exts ++ [s.external_addresses])
        (fun r h hf => hwf r (by simp [h]) hf) hex'
      refine ⟨e, ?_, r', by simp [hr'], hrest⟩
      rw [waitGo, if_neg hs, he]
      simp

/-- C5: if any launch in the batch reports failure status, every process
started for the batch — successes included — is killed before the single
raised error, which carries a failing worker's original error with its
traceback attached (`with_traceback`); if no launch fails, the call returns
all process handles and their reported external addresses, killing nothing.
The well-formedness hypothesis records that a failure status produced by
`_create_sub_pool` always carries an error object. -/
theorem wait_sub_pools_ready_batch_atomicity
    (results : List (Process × SubpoolStatus))
    (hwf : ∀ r ∈ results, r.2.status = some 1 → r.2.error.isSome) :
    ((∃ r ∈ results, r.2.status = some 1) →
      (wait_sub_pools_ready results).killed = results.map Prod.fst ∧
      ∃ e, (wait_sub_pools_ready results).result = .error e ∧
        ∃ r ∈ results, r.2.status = some 1 ∧
          ∃ oe, r.2.error = some oe ∧ e = { oe with tb := r.2.traceback }) ∧
    ((∀ r ∈ results, r.2.status ≠ some 1) →
      (wait_sub_pools_ready results).killed = [] ∧
      (wait_sub_pools_ready results).result =
        .ok (results.map Prod.fst,
             results.map (fun r => r.2.external_addresses))) := by
  constructor
  · intro hex
    obtain ⟨e, he, hr⟩ := waitGo_failure results [] [] hwf hex
    rw [wait_sub_pools_ready, he]
    exact ⟨by simp, e, rfl, hr⟩
  · intro hok
    rw [wait_sub_pools_ready, waitGo_no_failure results [] [] hok]
    simp

/-- A batch of three launches whose second fails. -/
def batch3 : List (Process × SubpoolStatus) :=
  [(⟨1⟩, { status := some 0, external_addresses := some ["h:11"] }),
   (⟨2⟩, { status := some 1,
           error := some { name := "RuntimeError", msg := "boom" },
           traceback := some "tb2" }),
   (⟨3⟩, { status := some 0, external_addresses := some ["h:13"] })]

/-- C5 (witness): with the second of three launches failing, all three
processes are killed and the raised error is the second worker's, via
`wait_sub_pools_ready_batch_atomicity`. -/
theorem wait_sub_pools_ready_batch_witness :
    (wait_sub_pools_ready batch3).killed = batch3.map Prod.fst ∧
    ∃ e, (wait_sub_pools_ready batch3).result = .error e ∧
      ∃ r ∈ batch3, r.2.status = some 1 ∧
        ∃ oe, r.2.error = some oe ∧ e = { oe with tb := r.2.traceback } :=
  (wait_sub_pools_ready_batch_atomicity batch3 (by decide)).1 (by decide)

/-! ## Claim C6 — actor replay during recovery -/

/-- C6: recovering a dead worker address whose respawn handshake does not
report failure replaces the handle stored for that address; when the pool's
recovery policy is "actor" the creation messages recorded in that address's
allocated-actor registry are re-sent in recording order, one per recorded
actor; under any other policy nothing is re-sent, so the worker restarts
with no actors. -/
theorem recover_sub_pool_actor_replay (st : MainPoolState) (address : String)
    (process : Process) (pstatus : SubpoolStatus) (idx : Nat)
    (hidx : st.config.get_process_index address = some idx)
    (hok : pstatus.status ≠ some 1) :
    (recover_sub_pool st address (process, pstatus)).result = .ok () ∧
    (recover_sub_pool st address (process, pstatus)).state.sub_processes =
      setAssoc st.sub_processes address process ∧
    (st.auto_recover = "actor" →
      (recover_sub_pool st address (process, pstatus)).sentMessages =
        ((lookupKey st.allocated_actors address).getD []).map Prod.snd) ∧
    (st.auto_recover ≠ "actor" →
      (recover_sub_pool st address (process, pstatus)).sentMessages = []) := by
  have hwait : wait_sub_pools_ready [(process, pstatus)] =
      { killed := [], result := .ok ([process], [pstatus.external_addresses]) } := by
    rw [wait_sub_pools_ready, waitGo, if_neg hok]
    rfl
  by_cases hr : st.auto_recover = "actor" <;>
    simp [recover_sub_pool, hidx, hwait, hr]

/-- A pool with one dead worker at "h:2" owning three recorded actors. -/
def recState : MainPoolState :=
  { external_address := "h:1",
    config := ⟨[(0, { external_address := ["h:1"] }),
                (1, { external_address := ["h:2"] })]⟩,
    sub_processes := [("h:2", ⟨9⟩)],
    auto_recover := "actor",
    allocated_actors := [("h:2", [(0, ⟨100⟩), (1, ⟨101⟩), (2, ⟨102⟩)])] }

/-- C6 (witness): the worker with 3 recorded actors receives exactly its 3
creation messages, in order, via `recover_sub_pool_actor_replay`. -/
theorem recover_sub_pool_actor_replay_witness :
    (recover_sub_pool recState "h:2"
        (⟨10⟩, { status := some 0, external_addresses := some ["h:2"] })).sentMessages =
      [⟨100⟩, ⟨101⟩, ⟨102⟩] := by
  have h := recover_sub_pool_actor_replay recState "h:2" ⟨10⟩
    { status := some 0, external_addresses := some ["h:2"] } 1 (by decide) (by decide)
  rw [h.2.2.1 rfl]
  rfl

/-! ## Claim C7 — exactly one startup report -/

/-- C7: every execution of `_create_sub_pool` enqueues exactly one
`SubpoolStatus`: on success a status-0 record carrying the (non-empty)
configured external addresses, enqueued before the long-running serve
phase; on a failure anywhere in initialization (including `pool.start()`) a
status-1 record carrying the error and its traceback, with no serve phase —
the worker never exits silently and never reports twice. -/
theorem create_sub_pool_reports_exactly_once (cfg : PoolConfEntry)
    (createResult startResult : Except PyErr Unit)
    (hne : cfg.external_address ≠ []) :
    (((_create_sub_pool cfg createResult startResult).1.filter isPutEvent).length = 1) ∧
    ((_create_sub_pool cfg createResult startResult).2 = .ok () →
      (_create_sub_pool cfg createResult startResult).1 =
        [.createPool, .startPool,
         .put { status := some 0, external_addresses := some cfg.external_address },
         .serve] ∧
      ∃ addrs, addrs ≠ [] ∧
        CSPEvent.put { status := some 0, external_addresses := some addrs } ∈
          (_create_sub_pool cfg createResult startResult).1) ∧
    (∀ e, (_create_sub_pool cfg createResult startResult).2 = .error e →
      CSPEvent.put { status := some 1, error := some e, traceback := e.tb } ∈
        (_create_sub_pool cfg createResult startResult).1 ∧
      CSPEvent.serve ∉ (_create_sub_pool cfg createResult startResult).1) := by
  cases createResult with
  | error e =>
    refine ⟨by simp [_create_sub_pool, isPutEvent], by simp [_create_sub_pool], ?_⟩
    intro e' he'
    simp only [_create_sub_pool] at he' ⊢
    obtain rfl : e = e' := by
      injection he'
    simp
  | ok u =>
    cases startResult with
    | error e =>
      refine ⟨by simp [_create_sub_pool, isPutEvent], by simp [_create_sub_pool], ?_⟩
      intro e' he'
      simp only [_create_sub_pool] at he' ⊢
      obtain rfl : e = e' := by
        injection he'
      simp
    | ok v =>
      refine ⟨by simp [_create_sub_pool, isPutEvent], ?_, by simp [_create_sub_pool]⟩
      intro _
      exact ⟨by simp [_create_sub_pool], cfg.external_address, hne,
        by simp [_create_sub_pool]⟩

/-- C7 (witness): a fully successful bootstrap enqueues exactly one status,
via `create_sub_pool_reports_exactly_once`. -/
theorem create_sub_pool_reports_witness :
    ((_create_sub_pool { external_address := ["h:2"] }
        (.ok ()) (.ok ())).1.filter isPutEvent).length = 1 :=
  (create_sub_pool_reports_exactly_once { external_address := ["h:2"] }
    (.ok ()) (.ok ()) (by decide)).1

/-! ## Claim C8 — environment pre-application -/

/-- C8: `_pre_set_env_in_main` is a no-op (no lock, no environ change at
any point) unless the parsed `XOSCAR_PRE_SET_ENV` flag is enabled AND the
worker's env mapping is non-empty; when it does run, it acquires the single
module-level global lock `_PRE_SET_ENV_LOCK` (the same lock constant for
every launch), the spawn body observes the updated environ, and the
parent's original environ is restored after the block — identically whether
the body succeeded or raised. -/
theorem pre_set_env_in_main_spec (environ env : List (String × String))
    (body : Except PyErr Unit) (flag : Bool)
    (hflag : preSetFlag environ = .ok flag) :
    ((flag = false ∨ env = []) →
      _pre_set_env_in_main environ env body =
        .ok { events := [], bodyEnviron := environ, finalEnviron := environ,
              result := body }) ∧
    (flag = true → env ≠ [] →
      _pre_set_env_in_main environ env body =
        .ok { events := [.acquire PRE_SET_ENV_LOCK, .setEnviron, .restoreEnviron,
                         .release PRE_SET_ENV_LOCK],
              bodyEnviron := dictUpdate environ env, finalEnviron := environ,
              result := body }) := by
  constructor
  · intro h
    have hcond : ¬flag = true ∨ env = [] := by
      rcases h with h | h
      · exact .inl (by simp [h])
      · exact .inr h
    simp only [_pre_set_env_in_main, hflag]
    rw [if_pos hcond]
  · intro hf he
    have hcond : ¬(¬flag = true ∨ env = []) := by
      simp [hf, he]
    simp only [_pre_set_env_in_main, hflag]
    rw [if_neg hcond]

/-- Parent environ with the opt-in flag enabled. -/
def environ0 : List (String × String) :=
  [("XOSCAR_PRE_SET_ENV", "1"), ("PATH", "/bin")]

/-- Worker env to pre-apply. -/
def env0 : List (String × String) := [("CUDA_VISIBLE_DEVICES", "0")]

/-- C8 (witness): flag on, non-empty env, and a FAILING spawn body: the
global lock is taken and the original environ is still restored, via
`pre_set_env_in_main_spec`. -/
theorem pre_set_env_in_main_witness :
    _pre_set_env_in_main environ0 env0
        (.error { name := "OSError", msg := "spawn failed" }) =
      .ok { events := [.acquire PRE_SET_ENV_LOCK, .setEnviron, .restoreEnviron,
                       .release PRE_SET_ENV_LOCK],
            bodyEnviron := dictUpdate environ0 env0,
            finalEnviron := environ0,
            result := .error { name := "OSError", msg := "spawn failed" } } :=
  (pre_set_env_in_main_spec environ0 env0
    (.error { name := "OSError", msg := "spawn failed" }) true (by decide)).2
    rfl (by decide)

end XoscarPool
